import Mathlib

/-! # Mock HAL (`tizen-vts/src/hal_tests/mock_hal_header.h`)

Shallow embedding of the in-process mock hardware abstraction layer.

The C++ header keeps two file-level statics (`current_status`,
`mock_config_value`) that every function reads and writes.  Here they are
the two fields of `Mock`, and each function takes the state before the call
and returns its C++ return value together with the state after the call.
An out-parameter (`int& value`) is passed in with its prior content and
returned with its content after the call.

The C++ `int` is embedded as `Int`: the header only copies `int` values
(no arithmetic), so no overflow can occur and every 32-bit value is an `Int`.
-/

namespace mock_hal

/-- Device status, `enum class DeviceStatus` (mock_hal_header.h:10-15). -/
inductive DeviceStatus where
  | OFF
  | INITIALIZING
  | ON
  | ERROR
  deriving DecidableEq, Repr

/-- The mutable state of the mock: the statics of mock_hal_header.h:58-59. -/
structure Mock where
  current_status : DeviceStatus
  mock_config_value : Int
  deriving DecidableEq, Repr

/-- State before any operation is called: the static initialisers
`current_status = DeviceStatus::OFF`, `mock_config_value = 0`
(mock_hal_header.h:58-59). -/
def initial : Mock :=
  { current_status := DeviceStatus.OFF, mock_config_value := 0 }

/-- Embedding of `hal_power_on` (mock_hal_header.h:61-69).  Both assignments
of the taken branch are kept, in order. -/
def hal_power_on (s : Mock) : Bool × Mock :=
  if s.current_status = DeviceStatus.OFF ∨ s.current_status = DeviceStatus.ERROR then
    let s1 : Mock := { s with current_status := DeviceStatus.INITIALIZING }
    let s2 : Mock := { s1 with current_status := DeviceStatus.ON }
    (true, s2)
  else
    (false, s)

/-- Embedding of `hal_power_off` (mock_hal_header.h:71-77). -/
def hal_power_off (s : Mock) : Bool × Mock :=
  if s.current_status = DeviceStatus.ON then
    (true, { s with current_status := DeviceStatus.OFF })
  else
    (false, s)

/-- Embedding of `hal_get_status` (mock_hal_header.h:79-81): the returned
status and the state after the call. -/
def hal_get_status (s : Mock) : DeviceStatus × Mock :=
  (s.current_status, s)

/-- Embedding of `hal_set_config` (mock_hal_header.h:83-89). -/
def hal_set_config (s : Mock) (key : String) (value : Int) : Bool × Mock :=
  if key = "TARGET_VOLTAGE" then
    (true, { s with mock_config_value := value })
  else
    (false, s)

/-- Embedding of `hal_get_config` (mock_hal_header.h:91-97).  `value` is the
prior content of the out-parameter; the result is the return value, the
content of the out-parameter after the call, and the state after the call. -/
def hal_get_config (s : Mock) (key : String) (value : Int) : Bool × Int × Mock :=
  if key = "TARGET_VOLTAGE" then
    (true, s.mock_config_value, s)
  else
    (false, value, s)

/-- A call of one of the two power operations. -/
inductive PowerCall where
  | power_on
  | power_off
  deriving DecidableEq, Repr

/-- State after performing one power call (its return value is dropped). -/
def PowerCall.run (c : PowerCall) (s : Mock) : Mock :=
  match c with
  | PowerCall.power_on => (hal_power_on s).2
  | PowerCall.power_off => (hal_power_off s).2

/-- The device status observed after each completed call of a sequence of
power calls, in call order. -/
def statusAfterEach : Mock → List PowerCall → List DeviceStatus
  | _, [] => []
  | s, c :: cs => (c.run s).current_status :: statusAfterEach (c.run s) cs

/-- A call of any of the five operations of the mock, with its arguments
(for `get_config`, `value` is the prior content of the out-parameter). -/
inductive Call where
  | power_on
  | power_off
  | get_status
  | set_config (key : String) (value : Int)
  | get_config (key : String) (value : Int)
  deriving DecidableEq, Repr

/-- State after performing one call (its results are dropped). -/
def Call.run (c : Call) (s : Mock) : Mock :=
  match c with
  | Call.power_on => (hal_power_on s).2
  | Call.power_off => (hal_power_off s).2
  | Call.get_status => (hal_get_status s).2
  | Call.set_config key value => (hal_set_config s key value).2
  | Call.get_config key value => (hal_get_config s key value).2.2

/-- State after performing a sequence of calls, first call first. -/
def runCalls (s : Mock) (cs : List Call) : Mock :=
  cs.foldl (fun acc c => c.run acc) s

/-- A state is reachable when some finite sequence of calls of the five
operations leads to it from `initial`. -/
def Reachable (s : Mock) : Prop :=
  ∃ cs : List Call, runCalls initial cs = s

/-- The trace of `n` repetitions of `hal_power_on(); hal_power_off();`: for
each of the `2 * n` calls, in call order, its return value and the status
right after it; and the state after the last call. -/
def powerCycles : Nat → Mock → List (Bool × DeviceStatus) × Mock
  | 0, s => ([], s)
  | n + 1, s =>
    let r1 := hal_power_on s
    let r2 := hal_power_off r1.2
    let rest := powerCycles n r2.2
    ((r1.1, r1.2.current_status) :: (r2.1, r2.2.current_status) :: rest.1, rest.2)

end mock_hal

/-! # HAL test fixture (`tizen-vts/src/hal_tests/sample_hal_test.cpp`) -/

namespace SampleHALTest

open mock_hal

/-- Embedding of `SampleHALTest::SetUp` (sample_hal_test.cpp:9-17): power the
device off when `hal_get_status` does not report OFF, then reset the
configuration with `hal_set_config("TARGET_VOLTAGE", 0)`.  The return values
of `hal_power_off` and `hal_set_config` are ignored, as in the source. -/
def SetUp (s : Mock) : Mock :=
  let r := hal_get_status s
  let s1 : Mock := if r.1 ≠ DeviceStatus.OFF then (hal_power_off r.2).2 else r.2
  (hal_set_config s1 "TARGET_VOLTAGE" 0).2

end SampleHALTest

/-! # Kernel interface tests (`tizen-vts/src/kernel_tests/sample_kernel_test.cpp`)

The filesystem is a map from a path to the content that opening and reading
the path yields, or `none` when the path cannot be opened. -/

/-- The filesystem seen by `std::ifstream`: `none` for a path that cannot be
opened, `some data` for a path that opens and reads as `data`. -/
def FileSystem : Type := String → Option String

namespace SampleKernelTest

/-- Embedding of `SampleKernelTest::readFileToString`
(sample_kernel_test.cpp:20-30).  `content` is the prior value of the caller's
string; the result is the return value and the caller's string after the call.
When the stream is not open the function returns before assigning `content`;
otherwise the whole stream is inserted into an empty buffer and `content` is
assigned the buffer. -/
def readFileToString (fs : FileSystem) (filePath : String) (content : String) :
    Bool × String :=
  match fs filePath with
  | none => (false, content)
  | some data =>
    let buffer : String := "" ++ data
    (true, buffer)

end SampleKernelTest

namespace mock_hal

/-! ## Helper lemmas -/

theorem hal_power_on_status (s : Mock) :
    (hal_power_on s).2.current_status = DeviceStatus.ON ∨
      (hal_power_on s).2.current_status = s.current_status := by
  unfold hal_power_on
  split <;> simp

theorem hal_power_on_config (s : Mock) :
    (hal_power_on s).2.mock_config_value = s.mock_config_value := by
  unfold hal_power_on
  split <;> simp

theorem hal_power_off_status (s : Mock) :
    (hal_power_off s).2.current_status = DeviceStatus.OFF ∨
      (hal_power_off s).2.current_status = s.current_status := by
  unfold hal_power_off
  split <;> simp

theorem hal_set_config_status (s : Mock) (key : String) (value : Int) :
    (hal_set_config s key value).2.current_status = s.current_status := by
  unfold hal_set_config
  split <;> simp

theorem hal_get_config_state (s : Mock) (key : String) (value : Int) :
    (hal_get_config s key value).2.2 = s := by
  unfold hal_get_config
  split <;> simp

/-- Status after any single call: ON, OFF, or what it was before. -/
theorem Call.run_status (c : Call) (s : Mock) :
    (c.run s).current_status = DeviceStatus.ON ∨
      (c.run s).current_status = DeviceStatus.OFF ∨
      (c.run s).current_status = s.current_status := by
  cases c with
  | power_on =>
    rcases hal_power_on_status s with h | h
    · exact Or.inl h
    · exact Or.inr (Or.inr h)
  | power_off =>
    rcases hal_power_off_status s with h | h
    · exact Or.inr (Or.inl h)
    · exact Or.inr (Or.inr h)
  | get_status => exact Or.inr (Or.inr rfl)
  | set_config key value => exact Or.inr (Or.inr (hal_set_config_status s key value))
  | get_config key value =>
    exact Or.inr (Or.inr (congrArg Mock.current_status (hal_get_config_state s key value)))

/-- The set of statuses OFF, ON is closed under every sequence of calls. -/
theorem runCalls_off_or_on (cs : List Call) :
    ∀ s : Mock,
      (s.current_status = DeviceStatus.OFF ∨ s.current_status = DeviceStatus.ON) →
      ((runCalls s cs).current_status = DeviceStatus.OFF ∨
        (runCalls s cs).current_status = DeviceStatus.ON) := by
  induction cs with
  | nil => intro s h; exact h
  | cons c cs ih =>
    intro s h
    have step : (c.run s).current_status = DeviceStatus.OFF ∨
        (c.run s).current_status = DeviceStatus.ON := by
      rcases Call.run_status c s with h1 | h1 | h1
      · exact Or.inr h1
      · exact Or.inl h1
      · rw [h1]; exact h
    exact ih (c.run s) step

/-- The set of statuses OFF, ON is closed under every sequence of power
calls, at every point of the sequence. -/
theorem statusAfterEach_off_or_on (cs : List PowerCall) :
    ∀ s : Mock,
      (s.current_status = DeviceStatus.OFF ∨ s.current_status = DeviceStatus.ON) →
      ∀ st ∈ statusAfterEach s cs, st = DeviceStatus.OFF ∨ st = DeviceStatus.ON := by
  induction cs with
  | nil => intro s _ st hst; simp [statusAfterEach] at hst
  | cons c cs ih =>
    intro s h st hst
    have step : (c.run s).current_status = DeviceStatus.OFF ∨
        (c.run s).current_status = DeviceStatus.ON := by
      cases c with
      | power_on =>
        rcases hal_power_on_status s with h1 | h1
        · exact Or.inr h1
        · show (hal_power_on s).2.current_status = _ ∨ (hal_power_on s).2.current_status = _
          rw [h1]; exact h
      | power_off =>
        rcases hal_power_off_status s with h1 | h1
        · exact Or.inl h1
        · show (hal_power_off s).2.current_status = _ ∨ (hal_power_off s).2.current_status = _
          rw [h1]; exact h
    simp only [statusAfterEach, List.mem_cons] at hst
    rcases hst with hst | hst
    · rw [hst]; exact step
    · exact ih (c.run s) step st hst

/-! ## Power operations -/

/-- C1: for every mock state, `hal_power_on` returns true exactly when the
status is OFF or ERROR (and false exactly when it is ON or INITIALIZING);
when it returns true the resulting status is ON, and when it returns false
the status is unchanged. -/
theorem hal_power_on_contract (s : Mock) :
    ((hal_power_on s).1 = true ↔
      (s.current_status = DeviceStatus.OFF ∨ s.current_status = DeviceStatus.ERROR)) ∧
    ((hal_power_on s).1 = true →
      (hal_power_on s).2.current_status = DeviceStatus.ON) ∧
    ((hal_power_on s).1 = false ↔
      (s.current_status = DeviceStatus.ON ∨ s.current_status = DeviceStatus.INITIALIZING)) ∧
    ((hal_power_on s).1 = false →
      (hal_power_on s).2.current_status = s.current_status) := by
  obtain ⟨st, v⟩ := s
  cases st <;> simp [hal_power_on]

/-- Instance of C1 at status ERROR with stored value 5: the call returns
true and the status becomes ON. -/
theorem hal_power_on_contract_witness :
    (hal_power_on { current_status := DeviceStatus.ERROR, mock_config_value := 5 }).1 = true ∧
    (hal_power_on { current_status := DeviceStatus.ERROR,
                    mock_config_value := 5 }).2.current_status = DeviceStatus.ON :=
  ⟨by decide,
   (hal_power_on_contract
      { current_status := DeviceStatus.ERROR, mock_config_value := 5 }).2.1 (by decide)⟩

/-- C2: for every mock state, `hal_power_off` returns true exactly when the
status is ON, and then the resulting status is OFF; for every other status
it returns false and the status is unchanged.  On the initial state it
returns false and the status stays OFF. -/
theorem hal_power_off_contract (s : Mock) :
    ((hal_power_off s).1 = true ↔ s.current_status = DeviceStatus.ON) ∧
    ((hal_power_off s).1 = true →
      (hal_power_off s).2.current_status = DeviceStatus.OFF) ∧
    (s.current_status ≠ DeviceStatus.ON →
      (hal_power_off s).1 = false ∧
      (hal_power_off s).2.current_status = s.current_status) ∧
    ((hal_power_off initial).1 = false ∧
      (hal_power_off initial).2.current_status = DeviceStatus.OFF) := by
  obtain ⟨st, v⟩ := s
  cases st <;> simp [hal_power_off, initial]

/-- Instance of C2 at status ON with stored value 7: the call returns true
and the status becomes OFF. -/
theorem hal_power_off_contract_witness :
    (hal_power_off { current_status := DeviceStatus.ON, mock_config_value := 7 }).1 = true ∧
    (hal_power_off { current_status := DeviceStatus.ON,
                     mock_config_value := 7 }).2.current_status = DeviceStatus.OFF :=
  ⟨by decide,
   (hal_power_off_contract
      { current_status := DeviceStatus.ON, mock_config_value := 7 }).2.1 (by decide)⟩

/-- C3: starting from the initial state, for every finite sequence of
`hal_power_on` / `hal_power_off` calls, the status after each completed call
is OFF or ON. -/
theorem power_calls_status_off_or_on (cs : List PowerCall) (st : DeviceStatus)
    (h : st ∈ statusAfterEach initial cs) :
    st = DeviceStatus.OFF ∨ st = DeviceStatus.ON :=
  statusAfterEach_off_or_on cs initial (Or.inl rfl) st h

/-- Instance of C3: in the sequence on, on, off, off the status ON is
observed, and it is one of OFF, ON. -/
theorem power_calls_status_off_or_on_witness :
    DeviceStatus.ON ∈ statusAfterEach initial
        [PowerCall.power_on, PowerCall.power_on, PowerCall.power_off, PowerCall.power_off] ∧
    (DeviceStatus.ON = DeviceStatus.OFF ∨ DeviceStatus.ON = DeviceStatus.ON) :=
  ⟨by decide,
   power_calls_status_off_or_on
     [PowerCall.power_on, PowerCall.power_on, PowerCall.power_off, PowerCall.power_off]
     DeviceStatus.ON (by decide)⟩

/-! ## Configuration operations -/

/-- C4: for every mock state and every value `v`,
`hal_set_config("TARGET_VOLTAGE", v)` returns true, and an immediately
following `hal_get_config("TARGET_VOLTAGE", out)` returns true with `out`
equal to `v`, whatever `out` held before. -/
theorem set_get_config_roundtrip (s : Mock) (v out : Int) :
    (hal_set_config s "TARGET_VOLTAGE" v).1 = true ∧
    (hal_get_config (hal_set_config s "TARGET_VOLTAGE" v).2 "TARGET_VOLTAGE" out).1 = true ∧
    (hal_get_config (hal_set_config s "TARGET_VOLTAGE" v).2 "TARGET_VOLTAGE" out).2.1 = v := by
  simp [hal_set_config, hal_get_config]

/-- C5: for every mock state, every key other than "TARGET_VOLTAGE" and
every value, `hal_set_config(key, value)` returns false and leaves the state
unchanged; a following `hal_get_config("TARGET_VOLTAGE", out)` gives the same
result as it would have before the call. -/
theorem hal_set_config_unknown_key (s : Mock) (key : String) (value out : Int)
    (hkey : key ≠ "TARGET_VOLTAGE") :
    (hal_set_config s key value).1 = false ∧
    (hal_set_config s key value).2 = s ∧
    (hal_get_config (hal_set_config s key value).2 "TARGET_VOLTAGE" out).1 =
      (hal_get_config s "TARGET_VOLTAGE" out).1 ∧
    (hal_get_config (hal_set_config s key value).2 "TARGET_VOLTAGE" out).2.1 =
      (hal_get_config s "TARGET_VOLTAGE" out).2.1 := by
  simp [hal_set_config, hkey]

/-- Instance of C5 from the test `SetAndGetConfig`: with 120 stored,
`hal_set_config("UNKNOWN_CONFIG", 99)` returns false and 120 is still
retrieved. -/
theorem hal_set_config_unknown_key_witness :
    "UNKNOWN_CONFIG" ≠ "TARGET_VOLTAGE" ∧
    (hal_set_config { current_status := DeviceStatus.OFF, mock_config_value := 120 }
        "UNKNOWN_CONFIG" 99).1 = false ∧
    (hal_get_config
        (hal_set_config { current_status := DeviceStatus.OFF, mock_config_value := 120 }
          "UNKNOWN_CONFIG" 99).2 "TARGET_VOLTAGE" 0).2.1 = 120 :=
  have h := hal_set_config_unknown_key
    { current_status := DeviceStatus.OFF, mock_config_value := 120 }
    "UNKNOWN_CONFIG" 99 0 (by decide)
  ⟨by decide, h.1, h.2.2.2.trans (by decide)⟩

/-- C6: for every mock state and every key, `hal_get_config(key, out)`
returns true if and only if the key is exactly "TARGET_VOLTAGE"; when it
returns true, `out` is the stored config value; for every other key, such as
"NON_EXISTENT_CONFIG", it returns false. -/
theorem hal_get_config_contract (s : Mock) (key : String) (out : Int) :
    ((hal_get_config s key out).1 = true ↔ key = "TARGET_VOLTAGE") ∧
    ((hal_get_config s key out).1 = true →
      (hal_get_config s key out).2.1 = s.mock_config_value) ∧
    (key ≠ "TARGET_VOLTAGE" → (hal_get_config s key out).1 = false) ∧
    (hal_get_config s "NON_EXISTENT_CONFIG" out).1 = false := by
  refine ⟨?_, ?_, ?_, ?_⟩
  · unfold hal_get_config
    split <;> simp [*]
  · unfold hal_get_config
    split <;> simp
  · intro h
    simp [hal_get_config, h]
  · have h : "NON_EXISTENT_CONFIG" ≠ "TARGET_VOLTAGE" := by decide
    simp [hal_get_config, h]

/-- Instance of C6: with 120 stored and 0 in the out-parameter,
`hal_get_config("TARGET_VOLTAGE", out)` returns true and `out` becomes 120. -/
theorem hal_get_config_contract_witness :
    (hal_get_config { current_status := DeviceStatus.ON, mock_config_value := 120 }
        "TARGET_VOLTAGE" 0).1 = true ∧
    (hal_get_config { current_status := DeviceStatus.ON, mock_config_value := 120 }
        "TARGET_VOLTAGE" 0).2.1 = 120 :=
  ⟨by decide,
   (hal_get_config_contract { current_status := DeviceStatus.ON, mock_config_value := 120 }
      "TARGET_VOLTAGE" 0).2.1 (by decide)⟩

/-! ## Reachable states and status frame properties -/

/-- C7: for every mock state reachable from the initial state, when
`hal_power_on` is called twice consecutively the second call returns false,
and the status is ON after the first call and still ON after the second. -/
theorem hal_power_on_twice (s : Mock) (hs : Reachable s) :
    (hal_power_on (hal_power_on s).2).1 = false ∧
    (hal_power_on s).2.current_status = DeviceStatus.ON ∧
    (hal_power_on (hal_power_on s).2).2.current_status = DeviceStatus.ON := by
  obtain ⟨cs, rfl⟩ := hs
  have h := runCalls_off_or_on cs initial (Or.inl rfl)
  generalize runCalls initial cs = t at h
  obtain ⟨st, v⟩ := t
  rcases h with h | h <;> simp only at h <;> subst h <;> simp [hal_power_on]

/-- Instance of C7 at the state reached by the calls
`hal_set_config("TARGET_VOLTAGE", 120)`, `hal_power_on`, `hal_power_off`. -/
theorem hal_power_on_twice_witness :
    Reachable { current_status := DeviceStatus.OFF, mock_config_value := 120 } ∧
    (hal_power_on (hal_power_on
      { current_status := DeviceStatus.OFF, mock_config_value := 120 }).2).1 = false ∧
    (hal_power_on
      { current_status := DeviceStatus.OFF,
        mock_config_value := 120 }).2.current_status = DeviceStatus.ON ∧
    (hal_power_on (hal_power_on
      { current_status := DeviceStatus.OFF,
        mock_config_value := 120 }).2).2.current_status = DeviceStatus.ON :=
  have hr : Reachable { current_status := DeviceStatus.OFF, mock_config_value := 120 } :=
    ⟨[Call.set_config "TARGET_VOLTAGE" 120, Call.power_on, Call.power_off], by decide⟩
  ⟨hr, hal_power_on_twice _ hr⟩

/-- C8: for every mock state and every one of the five operations with any
arguments, if the status before the call is not ERROR then the status after
it is not ERROR, and if the status before the call is not INITIALIZING then
the status after it is not INITIALIZING. -/
theorem no_call_enters_error_or_initializing (s : Mock) (c : Call) :
    (s.current_status ≠ DeviceStatus.ERROR →
      (c.run s).current_status ≠ DeviceStatus.ERROR) ∧
    (s.current_status ≠ DeviceStatus.INITIALIZING →
      (c.run s).current_status ≠ DeviceStatus.INITIALIZING) := by
  rcases Call.run_status c s with h | h | h
  · rw [h]; exact ⟨fun _ => by decide, fun _ => by decide⟩
  · rw [h]; exact ⟨fun _ => by decide, fun _ => by decide⟩
  · rw [h]; exact ⟨id, id⟩

/-- Instance of C8: from status INITIALIZING, `hal_power_off` does not lead
to ERROR; from status ERROR, `hal_power_on` does not lead to INITIALIZING. -/
theorem no_call_enters_error_or_initializing_witness :
    (Call.power_off.run
      { current_status := DeviceStatus.INITIALIZING,
        mock_config_value := 3 }).current_status ≠ DeviceStatus.ERROR ∧
    (Call.power_on.run
      { current_status := DeviceStatus.ERROR,
        mock_config_value := 3 }).current_status ≠ DeviceStatus.INITIALIZING :=
  ⟨(no_call_enters_error_or_initializing
      { current_status := DeviceStatus.INITIALIZING, mock_config_value := 3 }
      Call.power_off).1 (by decide),
   (no_call_enters_error_or_initializing
      { current_status := DeviceStatus.ERROR, mock_config_value := 3 }
      Call.power_on).2 (by decide)⟩

/-- C9: `hal_get_status` is a pure read: for every mock state it returns the
current status and leaves the status and the stored config value unchanged,
so a second consecutive call returns the same value as the first. -/
theorem hal_get_status_pure (s : Mock) :
    (hal_get_status s).1 = s.current_status ∧
    (hal_get_status s).2.current_status = s.current_status ∧
    (hal_get_status s).2.mock_config_value = s.mock_config_value ∧
    (hal_get_status (hal_get_status s).2).1 = (hal_get_status s).1 := by
  simp [hal_get_status]

/-- C10: in the initial state of the mock, `hal_get_status` returns OFF and
`hal_get_config("TARGET_VOLTAGE", out)` returns true with `out` equal to 0,
whatever `out` held before. -/
theorem initial_state_observations (out : Int) :
    (hal_get_status initial).1 = DeviceStatus.OFF ∧
    (hal_get_config initial "TARGET_VOLTAGE" out).1 = true ∧
    (hal_get_config initial "TARGET_VOLTAGE" out).2.1 = 0 := by
  simp [hal_get_status, hal_get_config, initial]

/-! ## Power cycling, independence of power and configuration -/

/-- C14: for every `n` and every mock state whose status is OFF, in `n`
repetitions of `hal_power_on; hal_power_off` each of the `2 * n` calls
returns true, the status is ON after each `hal_power_on` and OFF after each
`hal_power_off`, and the final state equals the starting state. -/
theorem power_cycle_repeatable (n : Nat) (s : Mock)
    (hs : s.current_status = DeviceStatus.OFF) :
    (powerCycles n s).1 =
      (List.replicate n [(true, DeviceStatus.ON), (true, DeviceStatus.OFF)]).flatten ∧
    (powerCycles n s).1.length = 2 * n ∧
    (powerCycles n s).2 = s := by
  have hon : hal_power_on s = (true, { s with current_status := DeviceStatus.ON }) := by
    simp [hal_power_on, hs]
  have hoff : hal_power_off { s with current_status := DeviceStatus.ON } = (true, s) := by
    obtain ⟨st, v⟩ := s
    simp only at hs
    subst hs
    simp [hal_power_off]
  induction n with
  | zero => simp [powerCycles]
  | succ k ih =>
    obtain ⟨ih1, ih2, ih3⟩ := ih
    simp only [powerCycles, hon, hoff, ih1, ih3, List.replicate_succ, List.flatten_cons,
      List.length_cons, List.cons_append, List.nil_append, true_and]
    rw [← ih1, ih2, hs]
    exact ⟨rfl, by omega, trivial⟩

/-- Instance of C14: two power cycles from status OFF with 120 stored. -/
theorem power_cycle_repeatable_witness :
    (powerCycles 2 { current_status := DeviceStatus.OFF, mock_config_value := 120 }).1 =
      [(true, DeviceStatus.ON), (true, DeviceStatus.OFF),
       (true, DeviceStatus.ON), (true, DeviceStatus.OFF)] ∧
    (powerCycles 2 { current_status := DeviceStatus.OFF, mock_config_value := 120 }).2 =
      { current_status := DeviceStatus.OFF, mock_config_value := 120 } :=
  have h := power_cycle_repeatable 2
    { current_status := DeviceStatus.OFF, mock_config_value := 120 } rfl
  ⟨h.1.trans (by decide), h.2.2⟩

/-- C16: for every mock state, `hal_power_on` and `hal_power_off` leave the
stored config value unchanged, `hal_set_config` with any key and value leaves
the status unchanged, and `hal_set_config("TARGET_VOLTAGE", v)` returns true
and stores `v` in every device status. -/
theorem power_and_config_independent (s : Mock) (key : String) (value v : Int) :
    (hal_power_on s).2.mock_config_value = s.mock_config_value ∧
    (hal_power_off s).2.mock_config_value = s.mock_config_value ∧
    (hal_set_config s key value).2.current_status = s.current_status ∧
    (hal_set_config s "TARGET_VOLTAGE" v).1 = true ∧
    (hal_set_config s "TARGET_VOLTAGE" v).2.mock_config_value = v := by
  refine ⟨hal_power_on_config s, ?_, hal_set_config_status s key value, ?_, ?_⟩
  · unfold hal_power_off
    split <;> simp
  · simp [hal_set_config]
  · simp [hal_set_config]

/-- C17: for every mock state, key and prior value of the out-parameter,
`hal_get_config` leaves the status and the stored config value unchanged,
and when the key is not "TARGET_VOLTAGE" the out-parameter keeps its prior
value. -/
theorem hal_get_config_frame (s : Mock) (key : String) (out : Int) :
    (hal_get_config s key out).2.2.current_status = s.current_status ∧
    (hal_get_config s key out).2.2.mock_config_value = s.mock_config_value ∧
    (key ≠ "TARGET_VOLTAGE" → (hal_get_config s key out).2.1 = out) := by
  refine ⟨?_, ?_, ?_⟩
  · rw [hal_get_config_state]
  · rw [hal_get_config_state]
  · intro h
    simp [hal_get_config, h]

/-- Instance of C17: with 120 stored and 42 in the out-parameter,
`hal_get_config("NON_EXISTENT_CONFIG", out)` leaves 42 in `out`. -/
theorem hal_get_config_frame_witness :
    "NON_EXISTENT_CONFIG" ≠ "TARGET_VOLTAGE" ∧
    (hal_get_config { current_status := DeviceStatus.ON, mock_config_value := 120 }
        "NON_EXISTENT_CONFIG" 42).2.1 = 42 :=
  ⟨by decide,
   (hal_get_config_frame { current_status := DeviceStatus.ON, mock_config_value := 120 }
      "NON_EXISTENT_CONFIG" 42).2.2 (by decide)⟩

/-- C18: for every mock state, after `hal_power_off` the status is not ON,
and after `hal_power_on` the status is neither OFF nor ERROR, whatever the
calls return. -/
theorem power_postconditions (s : Mock) :
    (hal_power_off s).2.current_status ≠ DeviceStatus.ON ∧
    (hal_power_on s).2.current_status ≠ DeviceStatus.OFF ∧
    (hal_power_on s).2.current_status ≠ DeviceStatus.ERROR := by
  obtain ⟨st, v⟩ := s
  cases st <;> simp [hal_power_off, hal_power_on]

end mock_hal

/-! # Properties of the HAL test fixture -/

namespace SampleHALTest

open mock_hal

/-- C13: for every mock state reachable from the initial state by a sequence
of the five HAL operations, after `SetUp` the device status is OFF and the
stored TARGET_VOLTAGE value is 0. -/
theorem SetUp_known_state (s : Mock) (hs : Reachable s) :
    (SetUp s).current_status = DeviceStatus.OFF ∧
    (SetUp s).mock_config_value = 0 := by
  obtain ⟨cs, rfl⟩ := hs
  have h := runCalls_off_or_on cs initial (Or.inl rfl)
  generalize runCalls initial cs = t at h
  obtain ⟨st, v⟩ := t
  rcases h with h | h <;> simp only at h <;> subst h <;>
    simp [SetUp, hal_get_status, hal_power_off, hal_set_config]

/-- Instance of C13 at the state a test leaves behind after `hal_power_on`
and `hal_set_config("TARGET_VOLTAGE", 120)`. -/
theorem SetUp_known_state_witness :
    Reachable { current_status := DeviceStatus.ON, mock_config_value := 120 } ∧
    (SetUp { current_status := DeviceStatus.ON,
             mock_config_value := 120 }).current_status = DeviceStatus.OFF ∧
    (SetUp { current_status := DeviceStatus.ON,
             mock_config_value := 120 }).mock_config_value = 0 :=
  have hr : Reachable { current_status := DeviceStatus.ON, mock_config_value := 120 } :=
    ⟨[Call.power_on, Call.set_config "TARGET_VOLTAGE" 120], by decide⟩
  ⟨hr, SetUp_known_state _ hr⟩

end SampleHALTest

/-! # Properties of the kernel interface tests -/

namespace SampleKernelTest

/-- Counterexample to C11 as stated: the path cannot be opened and the
caller's string holds "stale"; `readFileToString` returns false and the
string still holds "stale", so the result is not `(false, "")`. -/
theorem readFileToString_unopenable_not_cleared :
    (fun _ => none : FileSystem) "/definitely/missing/path" = none ∧
    readFileToString (fun _ => none) "/definitely/missing/path" "stale" = (false, "stale") ∧
    readFileToString (fun _ => none) "/definitely/missing/path" "stale" ≠ (false, "") :=
  ⟨rfl, rfl, by decide⟩

/-- C11, amended: for every path that cannot be opened and every prior value
of the caller's content string, `readFileToString` returns false and leaves
the content string as it was; the result is `(false, "")` when the caller's
string was empty before the call. -/
theorem readFileToString_unopenable (fs : FileSystem) (filePath content : String)
    (h : fs filePath = none) :
    readFileToString fs filePath content = (false, content) ∧
    readFileToString fs filePath "" = (false, "") := by
  simp [readFileToString, h]

/-- Instance of amended C11, as at the call sites of the tests: a missing
path and an empty caller string give `(false, "")`. -/
theorem readFileToString_unopenable_witness :
    (fun _ => none : FileSystem) "/definitely/missing/path" = none ∧
    readFileToString (fun _ => none) "/definitely/missing/path" "" = (false, "") :=
  ⟨rfl, (readFileToString_unopenable (fun _ => none) "/definitely/missing/path" "" rfl).1⟩

/-- C12: for every path that can be opened and every prior value of the
caller's content string, `readFileToString` returns true and the content is
exactly the complete content of the file, whatever its length, replacing the
prior value. -/
theorem readFileToString_openable (fs : FileSystem) (filePath content data : String)
    (h : fs filePath = some data) :
    readFileToString fs filePath content = (true, data) := by
  simp [readFileToString, h]

/-- Instance of C12: `/proc/version` holds "Linux version 6.1" and the
caller's string holds "old"; the result is true with the file's content. -/
theorem readFileToString_openable_witness :
    (fun p => if p = "/proc/version" then some "Linux version 6.1" else none : FileSystem)
        "/proc/version" = some "Linux version 6.1" ∧
    readFileToString
        (fun p => if p = "/proc/version" then some "Linux version 6.1" else none)
        "/proc/version" "old" = (true, "Linux version 6.1") :=
  ⟨by decide,
   readFileToString_openable
     (fun p => if p = "/proc/version" then some "Linux version 6.1" else none)
     "/proc/version" "old" "Linux version 6.1" (by decide)⟩

end SampleKernelTest
